import Mathlib

/-!
Verification development for the atol-canopy submission/XML-codec layer.

The definitions below are a shallow embedding of the Python source:

* `app/utils/xml_generator.py` (sample / experiment / run document builders,
  built on `xml.etree.ElementTree`),
* `app/utils/run_xml_functions.py` (run document builders),
* the bulk-import branch of `app/api/v1/endpoints/samples.py`,
* the `SampleSubmitted` staging rows of `app/models/sample.py` together with
  the create/update endpoints of `app/api/v1/endpoints/samples.py`.

JSON payloads are modelled by the inductive `Json` (numbers restricted to
integers; none of the verified properties depend on float formatting).
ElementTree elements are modelled by `Elem`: an element holds a tag, an
ordered attribute list, optional text and a list of children.  Python allows
a non-string tag or text to be stored in an element; serialization
(`ET.tostring`) is where CPython raises for a non-string text or attribute
value, and where an element whose tag is `None` is elided (its children are
written in its place).  `serialOk` captures exactly the success condition of
`ET.tostring`, and `spliceElem` computes the element structure that
serialization actually emits.  The final `minidom` pretty-printing step of
the Python code is pure text formatting and is not modelled; a generator
"returns a document" exactly when `serialOk` holds of the tree it builds.
-/

namespace Atol

/-- JSON values as stored in the payload dictionaries (`submission_json`,
`source_json`).  Numbers are modelled as integers. -/
inductive Json where
  | null
  | str (s : String)
  | num (n : Int)
  | bool (b : Bool)
  | arr (xs : List Json)
  | obj (kvs : List (String × Json))

/-- The key/value pairs of an object (`dict.items()`); empty for non-objects. -/
def Json.items : Json → List (String × Json)
  | .obj kvs => kvs
  | _ => []

/-- Python `key in d`: membership test on the object keys. -/
def Json.hasKey (j : Json) (k : String) : Bool :=
  j.items.any (fun kv => kv.1 == k)

/-- Python `d.get(key)` / `d[key]`: first binding of the key, if any. -/
def Json.lookup (j : Json) (k : String) : Option Json :=
  (j.items.find? (fun kv => kv.1 == k)).map (·.2)

/-- Python `d.get(key, default)`. -/
def Json.getD (j : Json) (k : String) (d : Json) : Json :=
  (j.lookup k).getD d

/-- The value to be stored as element text for a payload value: Python stores
`None` both when the value is the JSON null and when the key produced `None`,
so a JSON null collapses to "no text". -/
def jsonText : Json → Option Json
  | .null => none
  | v => some v

/-- Text for `elem.text = d.get(key, None)`: `none` when the key is absent or
its value is null, the raw value otherwise. -/
def Json.textAt (j : Json) (k : String) : Option Json :=
  (j.lookup k).bind jsonText

/-- Python `value is None` on a JSON value. -/
def isNull : Json → Bool
  | .null => true
  | _ => false

/-- Python truthiness of a JSON value (`if value:`). -/
def pyTruthy : Json → Bool
  | .null => false
  | .str s => !(s == "")
  | .num n => !(n == 0)
  | .bool b => b
  | .arr xs => !xs.isEmpty
  | .obj kvs => !kvs.isEmpty

/-- Truthiness filter for a Python `Optional[str]` argument (`if accession:`):
keeps the string exactly when it is present and non-empty. -/
def truthyStr : Option String → Option String
  | none => none
  | some s => if s == "" then none else some s

/-- A single apostrophe, used by the Python `repr` of strings. -/
def pyQuote : String := String.singleton (Char.ofNat 39)

mutual

/-- Python `repr` of a JSON value (escaping of quotes and backslashes inside
strings is not modelled; no verified property evaluates it on strings
containing them). -/
def pyRepr : Json → String
  | .null => "None"
  | .str s => pyQuote ++ s ++ pyQuote
  | .num n => toString n
  | .bool true => "True"
  | .bool false => "False"
  | .arr xs => "[" ++ pyReprArr xs ++ "]"
  | .obj kvs => "\x7b" ++ pyReprObj kvs ++ "\x7d"

/-- Comma-separated `repr`s of list entries. -/
def pyReprArr : List Json → String
  | [] => ""
  | [x] => pyRepr x
  | x :: xs => pyRepr x ++ ", " ++ pyReprArr xs

/-- Comma-separated `repr`s of dict entries. -/
def pyReprObj : List (String × Json) → String
  | [] => ""
  | [kv] => pyQuote ++ kv.1 ++ pyQuote ++ ": " ++ pyRepr kv.2
  | kv :: kvs => pyQuote ++ kv.1 ++ pyQuote ++ ": " ++ pyRepr kv.2 ++ ", " ++ pyReprObj kvs

end

/-- Python `str(value)`: identity on strings, `repr`-like rendering otherwise
(`str(None) = "None"`, `str(True) = "True"`, `str(300) = "300"`). -/
def pyStr : Json → String
  | .str s => s
  | v => pyRepr v

/-- An `xml.etree.ElementTree` element: tag (Python permits any object, in
particular `None`; here any `Json` value or `none`), ordered attribute list,
optional text, children. -/
inductive Elem where
  | mk (tag : Option Json) (attrs : List (String × Json)) (text : Option Json)
       (children : List Elem)

/-- Tag of an element. -/
def Elem.tag : Elem → Option Json
  | .mk t _ _ _ => t

/-- Attribute list of an element. -/
def Elem.attrs : Elem → List (String × Json)
  | .mk _ a _ _ => a

/-- Text of an element. -/
def Elem.text : Elem → Option Json
  | .mk _ _ x _ => x

/-- Children of an element. -/
def Elem.children : Elem → List Elem
  | .mk _ _ _ c => c

/-- Build an ordinary element with a string tag. -/
def el (tag : String) (attrs : List (String × Json)) (text : Option Json)
    (children : List Elem) : Elem :=
  Elem.mk (some (.str tag)) attrs text children

/-- Python `elem.find(name)`: first child whose tag is the given string. -/
def Elem.findChild (e : Elem) (name : String) : Option Elem :=
  e.children.find? (fun c => match c.tag with
    | some (.str s) => s == name
    | _ => false)

/-- Walk a path of child tag names from an element. -/
def Elem.findPath (e : Elem) : List String → Option Elem
  | [] => some e
  | n :: ns => match e.findChild n with
    | some c => c.findPath ns
    | none => none

/-- `ET.tostring` succeeds on a text slot iff it is `None` or a string. -/
def serialOkText : Option Json → Bool
  | none => true
  | some (.str _) => true
  | some _ => false

mutual

/-- Success condition of `ET.tostring`: every written tag is a string, every
written text and attribute value is a string (or absent).  An element whose
tag is `None` is elided, so its attributes are never written (CPython writes
only its text and children), while any other non-string tag raises. -/
def serialOk : Elem → Bool
  | .mk none _ t c => serialOkText t && serialOkChildren c
  | .mk (some (.str _)) a t c =>
      serialOkText t
        && a.all (fun kv => match kv.2 with | .str _ => true | _ => false)
        && serialOkChildren c
  | .mk (some _) _ _ _ => false

/-- `serialOk` over a list of children. -/
def serialOkChildren : List Elem → Bool
  | [] => true
  | e :: es => serialOk e && serialOkChildren es

end

mutual

/-- The element(s) that serialization actually emits for an element: an
element with tag `None` is replaced by its (spliced) children. -/
def spliceElem : Elem → List Elem
  | .mk none _ _ c => spliceChildren c
  | .mk (some t) a x c => [Elem.mk (some t) a x (spliceChildren c)]

/-- `spliceElem` over a list of children. -/
def spliceChildren : List Elem → List Elem
  | [] => []
  | e :: es => spliceElem e ++ spliceChildren es

end

/-! ## Sample documents (`generate_sample_xml`, xml_generator.py lines 13-139)

The generator reads `organism.tax_id`, `organism.scientific_name` and
`organism.common_name` from the resolved organism row; `Organism` models
exactly the fields the generator consumes (the SQLAlchemy model itself exists
in several divergent column-naming variants). -/

/-- The organism fields consumed by `generate_sample_xml`. -/
structure Organism where
  tax_id : Int
  scientific_name : String
  common_name : Option String

/-- Keys handled outside the attribute loop (xml_generator.py line 77). -/
def skipKeys : List String :=
  ["title", "taxon_id", "scientific_name", "common_name", "description"]

/-- One `SAMPLE_ATTRIBUTE` emitted from a payload key/value pair: `TAG` is the
key, `VALUE` is `str(value)`, and the two geographic-location keys get a
`UNITS` child fixed to `"DD"`. -/
def sampleAttrElem (k : String) (v : Json) : Elem :=
  el "SAMPLE_ATTRIBUTE" [] none
    ([el "TAG" [] (some (.str k)) [],
      el "VALUE" [] (some (.str (pyStr v))) []] ++
     (if k == "geographic location (latitude)"
         || k == "geographic location (longitude)"
      then [el "UNITS" [] (some (.str "DD")) []] else []))

/-- The attribute-loop pass over the payload (xml_generator.py lines 80-99):
skip the separately-handled keys, skip entries whose value is null. -/
def payloadSampleAttrs (kvs : List (String × Json)) : List Elem :=
  kvs.filterMap (fun kv =>
    if kv.1 ∈ skipKeys then none
    else if isNull kv.2 then none
    else some (sampleAttrElem kv.1 kv.2))

/-- The `attr.find("TAG").text == key` test used by the default-injection
checks (xml_generator.py lines 102, 115, 126). -/
def attrTagIs (e : Elem) (k : String) : Bool :=
  match e.findChild "TAG" with
  | some t => match t.text with
    | some (.str s) => s == k
    | _ => false
  | none => false

/-- A default `SAMPLE_ATTRIBUTE` injected by the generator. -/
def defaultAttr (k v : String) : Elem :=
  el "SAMPLE_ATTRIBUTE" [] none
    [el "TAG" [] (some (.str k)) [],
     el "VALUE" [] (some (.str v)) []]

/-- Append the default attribute for `k` unless an attribute with that `TAG`
is already present (xml_generator.py lines 101-134). -/
def withDefault (attrs : List Elem) (k v : String) : List Elem :=
  if attrs.any (fun a => attrTagIs a k) then attrs
  else attrs ++ [defaultAttr k v]

/-- The full `SAMPLE_ATTRIBUTES` child list: payload pass, then the
`ENA-CHECKLIST`, `collecting institution` and `project name` defaults, in the
order the source appends them. -/
def sampleAttributesChildren (kvs : List (String × Json)) : List Elem :=
  withDefault
    (withDefault
      (withDefault (payloadSampleAttrs kvs) "ENA-CHECKLIST" "ERC000053")
      "collecting institution" "not provided")
    "project name" "atol-genome-engine"

/-- The `IDENTIFIERS` block shared by the sample and experiment builders:
`PRIMARY_ID` only for a truthy accession, then `SUBMITTER_ID`. -/
def identifiersElem (aliasName center_name : String) (accession : Option String) :
    Elem :=
  el "IDENTIFIERS" [] none
    (((truthyStr accession).toList.map
        (fun s => el "PRIMARY_ID" [] (some (.str s)) [])) ++
     [el "SUBMITTER_ID" [("namespace", .str center_name)]
        (some (.str aliasName)) []])

/-- Root-element attributes shared by the three builders: `alias`,
`center_name`, `broker_name`, and `accession` only when truthy. -/
def rootAttrs (aliasName center_name broker_name : String)
    (accession : Option String) : List (String × Json) :=
  [("alias", .str aliasName), ("center_name", .str center_name),
   ("broker_name", .str broker_name)] ++
  ((truthyStr accession).toList.map (fun s => ("accession", Json.str s)))

/-- The element tree built by `generate_sample_xml` (xml_generator.py lines
13-135), before serialization. -/
def generate_sample_xml_tree (organism : Organism) (submission_json : Json)
    (aliasName center_name broker_name : String) (accession : Option String) :
    Elem :=
  el "SAMPLE_SET" [] none
    [el "SAMPLE" (rootAttrs aliasName center_name broker_name accession) none
      ([identifiersElem aliasName center_name accession,
        el "TITLE" []
          (jsonText (submission_json.getD "title" (.str (aliasName ++ " sample"))))
          [],
        el "SAMPLE_NAME" [] none
          [el "TAXON_ID" [] (some (.str (toString organism.tax_id))) [],
           el "SCIENTIFIC_NAME" [] (some (.str organism.scientific_name)) [],
           el "COMMON_NAME" [] (organism.common_name.map Json.str) []]] ++
       (if submission_json.hasKey "description"
        then [el "DESCRIPTION" [] (submission_json.textAt "description") []]
        else []) ++
       [el "SAMPLE_ATTRIBUTES" [] none
          (sampleAttributesChildren submission_json.items)])]

/-- `generate_sample_xml`: builds the tree and serializes it; `none` models
the Python call raising during `ET.tostring` (the subsequent `minidom`
pretty-printing is pure formatting and is not modelled). -/
def generate_sample_xml (organism : Organism) (submission_json : Json)
    (aliasName center_name broker_name : String) (accession : Option String) :
    Option Elem :=
  let t := generate_sample_xml_tree organism submission_json aliasName center_name
    broker_name accession
  if serialOk t then some t else none

/-! ## Experiment documents (`generate_experiment_xml`, xml_generator.py
lines 255-381) -/

/-- Attributes of `STUDY_REF` (xml_generator.py lines 296-300): the raw
`study_accession` value when that key is present, otherwise a `refname`
defaulting to `"AToL_study"`. -/
def studyRefAttrs (submission_json : Json) : List (String × Json) :=
  if submission_json.hasKey "study_accession" then
    [("accession", submission_json.getD "study_accession" .null)]
  else
    [("refname", submission_json.getD "study_refname" (.str "AToL_study"))]

/-- The `STUDY_REF` element: created unconditionally, attributes set by the
conditional above. -/
def studyRefElem (submission_json : Json) : Elem :=
  el "STUDY_REF" (studyRefAttrs submission_json) none []

/-- Attributes of `SAMPLE_DESCRIPTOR` (xml_generator.py lines 310-314):
`accession` when present, else `refname` when present, else none. -/
def sampleDescriptorAttrs (submission_json : Json) : List (String × Json) :=
  if submission_json.hasKey "sample_accession" then
    [("accession", submission_json.getD "sample_accession" .null)]
  else if submission_json.hasKey "sample_refname" then
    [("refname", submission_json.getD "sample_refname" .null)]
  else []

/-- The `SAMPLE_DESCRIPTOR` element: created unconditionally, attributes set
by the conditional above. -/
def sampleDescriptorElem (submission_json : Json) : Elem :=
  el "SAMPLE_DESCRIPTOR" (sampleDescriptorAttrs submission_json) none []

/-- Attributes of the `PAIRED` child of `LIBRARY_LAYOUT`: `NOMINAL_LENGTH` is
set to `str(submission_json["nominal_length"])` exactly when the key is
present (xml_generator.py lines 348-350). -/
def nominalLengthAttrs (submission_json : Json) : List (String × Json) :=
  if submission_json.hasKey "nominal_length" then
    [("NOMINAL_LENGTH", .str (pyStr (submission_json.getD "nominal_length" .null)))]
  else []

/-- Python `value == "PAIRED"` on a JSON value. -/
def isPairedLayout : Json → Bool
  | .str s => s == "PAIRED"
  | _ => false

/-- The `LIBRARY_LAYOUT` element (xml_generator.py lines 343-352): a single
`PAIRED` child when `library_layout` equals `"PAIRED"` (default `"SINGLE"`
when the key is absent), otherwise a single childless `SINGLE` child. -/
def libraryLayoutElem (submission_json : Json) : Elem :=
  el "LIBRARY_LAYOUT" [] none
    (if isPairedLayout (submission_json.getD "library_layout" (.str "SINGLE"))
     then [el "PAIRED" (nominalLengthAttrs submission_json) none []]
     else [el "SINGLE" [] none []])

/-- The `LIBRARY_DESCRIPTOR` element (xml_generator.py lines 317-352): the
five optional sub-elements are created unconditionally, their text taken
straight from `submission_json.get(key, None)`; only
`LIBRARY_CONSTRUCTION_PROTOCOL` has a non-null default. -/
def libraryDescriptorElem (submission_json : Json) : Elem :=
  el "LIBRARY_DESCRIPTOR" [] none
    [el "LIBRARY_NAME" [] (submission_json.textAt "library_name") [],
     el "LIBRARY_STRATEGY" [] (submission_json.textAt "library_strategy") [],
     el "LIBRARY_SOURCE" [] (submission_json.textAt "library_source") [],
     el "LIBRARY_SELECTION" [] (submission_json.textAt "library_selection") [],
     el "LIBRARY_CONSTRUCTION_PROTOCOL" []
       (jsonText (submission_json.getD "library_construction_protocol"
         (.str "unspecified"))) [],
     el "INSERT_SIZE" [] (submission_json.textAt "insert_size") [],
     libraryLayoutElem submission_json]

/-- The `PLATFORM` element of the experiment document (xml_generator.py lines
354-361): its child is created with `submission_json.get("platform", None)`
as the tag — an element whose tag is `None` when the key is absent or null —
and always contains `INSTRUMENT_MODEL`. -/
def platformElem (submission_json : Json) : Elem :=
  el "PLATFORM" [] none
    [Elem.mk (jsonText (submission_json.getD "platform" .null)) [] none
      [el "INSTRUMENT_MODEL" [] (submission_json.textAt "instrument_model") []]]

/-- One `EXPERIMENT_ATTRIBUTE` from the nested `attributes` map. -/
def experimentAttrElem (k : String) (v : Json) : Elem :=
  el "EXPERIMENT_ATTRIBUTE" [] none
    [el "TAG" [] (some (.str k)) [],
     el "VALUE" [] (some (.str (pyStr v))) []]

/-- The loop over the nested `attributes` map: one `EXPERIMENT_ATTRIBUTE`
per non-null entry. -/
def experimentAttrsChildren (kvs : List (String × Json)) : List Elem :=
  kvs.filterMap (fun kv =>
    if isNull kv.2 then none
    else some (experimentAttrElem kv.1 kv.2))

/-- The optional `EXPERIMENT_ATTRIBUTES` block (xml_generator.py lines
363-376): present only when the payload has a truthy `attributes` value, with
one attribute per non-null entry (the source calls `.items()`, so a non-dict
truthy value would raise; attribute payloads are dicts here). -/
def experimentAttributesOpt (submission_json : Json) : List Elem :=
  match submission_json.lookup "attributes" with
  | some a =>
    if pyTruthy a then
      [el "EXPERIMENT_ATTRIBUTES" [] none (experimentAttrsChildren a.items)]
    else []
  | none => []

/-- The element tree built by `generate_experiment_xml` (xml_generator.py
lines 255-376), before serialization. -/
def generate_experiment_xml_tree (submission_json : Json)
    (aliasName center_name broker_name : String) (accession : Option String) :
    Elem :=
  el "EXPERIMENT_SET" [] none
    [el "EXPERIMENT" (rootAttrs aliasName center_name broker_name accession)
      none
      ([identifiersElem aliasName center_name accession,
        el "TITLE" []
          (jsonText (submission_json.getD "title"
            (.str (aliasName ++ " experiment")))) [],
        studyRefElem submission_json,
        el "DESIGN" [] none
          [el "DESIGN_DESCRIPTION" []
             (jsonText (submission_json.getD "design_description" (.str "")))
             [],
           sampleDescriptorElem submission_json,
           libraryDescriptorElem submission_json],
        platformElem submission_json] ++
       experimentAttributesOpt submission_json)]

/-- `generate_experiment_xml`: builds the tree and serializes it; `none`
models the Python call raising during `ET.tostring`. -/
def generate_experiment_xml (submission_json : Json)
    (aliasName center_name broker_name : String) (accession : Option String) :
    Option Elem :=
  let t := generate_experiment_xml_tree submission_json aliasName center_name
    broker_name accession
  if serialOk t then some t else none

/-! ## Run documents (`generate_run_xml` / `generate_runs_xml`,
run_xml_functions.py lines 11-204; xml_generator.py lines 529-718 hold the
same two functions) -/

/-- Attributes of `EXPERIMENT_REF` (run_xml_functions.py lines 53-62): the
accession when `experiment_accession` is truthy, nothing otherwise. -/
def experimentRefAttrs (submission_json : Json) : List (String × Json) :=
  let acc := submission_json.getD "experiment_accession" .null
  if pyTruthy acc then [("accession", acc)] else []

/-- Children of `EXPERIMENT_REF`: a nested `IDENTIFIERS/PRIMARY_ID` when
`experiment_accession` is truthy, nothing otherwise. -/
def experimentRefChildren (submission_json : Json) : List Elem :=
  let acc := submission_json.getD "experiment_accession" .null
  if pyTruthy acc then
    [el "IDENTIFIERS" [] none [el "PRIMARY_ID" [] (some acc) []]]
  else []

/-- The `EXPERIMENT_REF` element (run_xml_functions.py lines 53-62): created
unconditionally; when `experiment_accession` is not truthy it is emitted with
no attributes and no children — the reference is silently omitted and no
alias is consulted. -/
def experimentRefElem (submission_json : Json) : Elem :=
  el "EXPERIMENT_REF" (experimentRefAttrs submission_json) none
    (experimentRefChildren submission_json)

/-- The run document's `PLATFORM` element (run_xml_functions.py lines 64-73):
unlike the experiment builder, the platform child is created only for a
truthy `platform` value. -/
def runPlatformElem (submission_json : Json) : Elem :=
  let pt := submission_json.getD "platform" .null
  el "PLATFORM" [] none
    (if pyTruthy pt then
      [Elem.mk (some pt) [] none
        [el "INSTRUMENT_MODEL" [] (submission_json.textAt "instrument_model")
          []]]
     else [])

/-- A `FILE` element from one entry of the nested `files` list
(run_xml_functions.py lines 84-98): each attribute is set only when its key
is present; `checksum_method` defaults to `"MD5"` alongside a checksum. -/
def fileElem (file_data : Json) : Elem :=
  el "FILE"
    ((if file_data.hasKey "checksum" then
        [("checksum", file_data.getD "checksum" .null),
         ("checksum_method", file_data.getD "checksum_method" (.str "MD5"))]
      else []) ++
     (if file_data.hasKey "filename" then
        [("filename", file_data.getD "filename" .null)]
      else []) ++
     (if file_data.hasKey "filetype" then
        [("filetype", file_data.getD "filetype" .null)]
      else []) ++
     (if file_data.hasKey "quality_scoring_system" then
        [("quality_scoring_system",
          file_data.getD "quality_scoring_system" .null)]
      else []))
    none []

/-- Children of `FILES` in `generate_run_xml` (run_xml_functions.py lines
82-98): one `FILE` per entry of a truthy `files` list (the source iterates
the value, which is a list in this payload shape). -/
def filesChildren (submission_json : Json) : List Elem :=
  match submission_json.lookup "files" with
  | some (.arr fs) => if fs.isEmpty then [] else fs.map fileElem
  | _ => []

/-- The `RUN` element shared by the two run builders, parameterized by the
children of its `FILES` element. -/
def runElemWith (submission_json : Json)
    (aliasName center_name broker_name : String) (accession : Option String)
    (fileElems : List Elem) : Elem :=
  el "RUN" (rootAttrs aliasName center_name broker_name accession) none
    [el "IDENTIFIERS" [] none
       (((truthyStr accession).toList.map
           (fun s => el "PRIMARY_ID" [] (some (.str s)) [])) ++
        [el "SUBMITTER_ID" [("namespace", .str center_name)]
           (some (.str aliasName)) []]),
     experimentRefElem submission_json,
     runPlatformElem submission_json,
     el "DATA_BLOCK" [] none [el "FILES" [] none fileElems]]

/-- The element tree built by `generate_run_xml` (run_xml_functions.py lines
11-103), before serialization. -/
def generate_run_xml_tree (submission_json : Json)
    (aliasName center_name broker_name : String) (accession : Option String) :
    Elem :=
  el "RUN_SET" [] none
    [runElemWith submission_json aliasName center_name broker_name accession
      (filesChildren submission_json)]

/-- `generate_run_xml`: builds the tree and serializes it; `none` models the
Python call raising during `ET.tostring`. -/
def generate_run_xml (submission_json : Json)
    (aliasName center_name broker_name : String) (accession : Option String) :
    Option Elem :=
  let t := generate_run_xml_tree submission_json aliasName center_name
    broker_name accession
  if serialOk t then some t else none

/-- One entry of the `runs_data` argument of `generate_runs_xml`, with the
`.get` defaults for `center_name` / `broker_name` / `accession` already
applied by the caller-side dictionary access. -/
structure RunInput where
  submission_json : Json
  aliasName : String
  center_name : String
  broker_name : String
  accession : Option String

/-- The single `FILE` element of each run in `generate_runs_xml`
(run_xml_functions.py lines 185-199): attributes are drawn from the
top-level `file_checksum` / `file_name` / `file_format` keys, with
`checksum_method` fixed to `"MD5"` whenever a checksum is present. -/
def runFileElemTop (submission_json : Json) : Elem :=
  el "FILE"
    ((if submission_json.hasKey "file_checksum" then
        [("checksum", submission_json.getD "file_checksum" .null),
         ("checksum_method", Json.str "MD5")]
      else []) ++
     (if submission_json.hasKey "file_name" then
        [("filename", submission_json.getD "file_name" .null)]
      else []) ++
     (if submission_json.hasKey "file_format" then
        [("filetype", submission_json.getD "file_format" .null)]
      else []))
    none []

/-- The element tree built by `generate_runs_xml` (run_xml_functions.py lines
106-204), before serialization: one `RUN` per input entry. -/
def generate_runs_xml_tree (runs_data : List RunInput) : Elem :=
  el "RUN_SET" [] none
    (runs_data.map (fun rd =>
      runElemWith rd.submission_json rd.aliasName rd.center_name
        rd.broker_name rd.accession [runFileElemTop rd.submission_json]))

/-- `generate_runs_xml`: builds the tree and serializes it; `none` models the
Python call raising during `ET.tostring`. -/
def generate_runs_xml (runs_data : List RunInput) : Option Elem :=
  let t := generate_runs_xml_tree runs_data
  if serialOk t then some t else none

/-! ## Model and schema attribute environment

The endpoint code of `samples.py` is written against a different column
generation than the models and pydantic schemas declared in this source
tree (the drift the spec's section 9 flags): it reads
`Sample.bpa_sample_id`, `Organism.organism_grouping_key`,
`submission_in.bpa_sample_id` and constructs rows with `bpa_sample_id` /
`internal_json` kwargs, none of which exist on the declared classes.  In
Python each such access is an exception: AttributeError for an attribute
read, TypeError for an unknown keyword argument of the SQLAlchemy
declarative constructor.  The definitions below record the attribute sets
actually declared and the two failure modes, so the embeddings of the
endpoints can take exactly the error paths the program takes. -/

/-- Column attributes of the `Sample` model (models/sample.py lines 11-32). -/
def sampleModelColumns : List String :=
  ["id", "sample_id_serial", "organism_id", "sample_accession_vector",
   "source_json", "internal_notes", "internal_priority_flag", "synced_at",
   "last_checked_at", "created_at", "updated_at"]

/-- Column attributes of the `Organism` model (models/organism.py lines
11-33). -/
def organismModelColumns : List String :=
  ["id", "organism_id_serial", "tax_id", "species_taxid_id",
   "scientific_name_taxon", "common_name_vector", "taxonomy_lineage_json",
   "species_organism_json", "source_json", "internal_notes", "synced_at",
   "last_checked_at", "created_at", "updated_at"]

/-- Column attributes of the `SampleSubmitted` model (models/sample.py
lines 35-55). -/
def sampleSubmittedModelColumns : List String :=
  ["id", "sample_id", "sample_id_serial", "organism_id", "submitted_json",
   "submitted_at", "status", "created_at", "updated_at"]

/-- Field names of the pydantic `SampleSubmittedCreate` schema
(schemas/sample.py lines 55-67). -/
def sampleSubmittedCreateFields : List String :=
  ["sample_id_serial", "organism_id", "status", "sample_id",
   "submitted_json", "submitted_at"]

/-- Python attribute access on an object declaring the given attribute
names: AttributeError when the name is not among them. -/
def pyGetAttr (attrs : List String) (name : String) : Except String String :=
  if name ∈ attrs then .ok name
  else .error ("AttributeError: " ++ name)

/-- The SQLAlchemy declarative constructor: raises TypeError on the first
keyword argument that is not a mapped attribute of the model. -/
def pyCtorKwargs (cols : List String) (kwargs : List String) :
    Except String Unit :=
  match kwargs.find? (fun kw => !(cols.contains kw)) with
  | some kw => .error ("TypeError: invalid keyword argument " ++ kw)
  | none => .ok ()

/-! ## Submission staging rows (`SampleSubmitted`, models/sample.py lines
35-51; create/update endpoints, samples.py lines 187-241)

The staging table stores `status` as an unconstrained string column and
`submitted_json` as a nullable JSON column, so a row in DRAFT with a null
`submitted_json` is a state the schema admits.  `create_sample_submission`
reads `submission_in.bpa_sample_id` (samples.py line 203), a field the
pydantic `SampleSubmittedCreate` schema does not define, so it raises
AttributeError for every request and never creates a row.
`update_sample_submission` applies `submission_in.dict(exclude_unset=True)`
with `setattr`, i.e. it overwrites exactly the fields the caller provided,
without any cross-field validation.  Update fields are modelled as `Option`
("provided or unset"); an explicitly-null `status` update is not modelled
since the NOT NULL column would reject it at commit. -/

/-- A `sample_submitted` staging row (the columns relevant to the staging
invariant). -/
structure SampleSubmittedRow where
  sample_id : Option Nat
  organism_id : Option Nat
  submitted_json : Option Json
  status : String
  submitted_at : Option Nat

/-- The caller-supplied body of `create_sample_submission`. -/
structure SampleSubmittedCreate where
  sample_id : Option Nat
  organism_id : Option Nat
  submitted_json : Option Json
  status : String
  submitted_at : Option Nat

/-- The caller-supplied body of `update_sample_submission`; `none` means the
field was not provided (pydantic `exclude_unset`). -/
structure SampleSubmittedUpdate where
  organism_id : Option (Option Nat)
  submitted_json : Option (Option Json)
  status : Option String
  submitted_at : Option (Option Nat)

/-- `create_sample_submission` (samples.py lines 187-213): the endpoint
builds `SampleSubmitted(sample_id=…, organism_id=…,
bpa_sample_id=submission_in.bpa_sample_id, …)`; the kwarg expressions are
evaluated left to right and `bpa_sample_id` (like `sample_accession` and
`internal_json` after it) is not a field of `SampleSubmittedCreate`, so the
attribute read at line 203 raises AttributeError for every request and no
row is ever created.  The completion after the raise is unreachable. -/
def create_sample_submission (c : SampleSubmittedCreate) :
    Except String SampleSubmittedRow := do
  let _ ← pyGetAttr sampleSubmittedCreateFields "bpa_sample_id"
  pure { sample_id := c.sample_id, organism_id := c.organism_id,
         submitted_json := c.submitted_json, status := c.status,
         submitted_at := c.submitted_at }

/-- `update_sample_submission` (samples.py lines 216-241): `setattr` per
provided field, no validation. -/
def update_sample_submission (row : SampleSubmittedRow)
    (u : SampleSubmittedUpdate) : SampleSubmittedRow :=
  { row with
    organism_id := u.organism_id.getD row.organism_id,
    submitted_json := u.submitted_json.getD row.submitted_json,
    status := u.status.getD row.status,
    submitted_at := u.submitted_at.getD row.submitted_at }

/-! ## Bulk sample import (`bulk_import_samples`, samples.py lines 285-378)

The endpoint iterates a dictionary keyed by `bpa_sample_id`.  Per row it
first queries for an existing `Sample` by that natural key (line 315) and
resolves the payload's `organism_grouping_key` to an `Organism` (line 325);
both queries run outside the per-row `try` of lines 336-365, whose `except`
(lines 367-371) rolls back the row and counts a skip.  The loop is written
against the missing column generation: building the line-315 filter reads
`Sample.bpa_sample_id` and raises AttributeError on the first row of any
non-empty input, outside the try block, so the exception propagates out of
the job; were the queries reachable, the constructors inside the try would
raise TypeError on their unknown `bpa_sample_id` / `internal_json` kwargs
(caught, row skipped), and a commit would violate the never-assigned NOT
NULL `sample_id_serial` / `status` columns.  The embedding makes each of
these error paths explicit; code below a raise is embedded for structure
but is unreachable.  The ena-atol mapping table is loaded from a JSON
config file that is not part of the analyzed sources and is passed in as
the `mapping` parameter. -/

/-- An `organism` table row (models/organism.py; the columns this
development needs). -/
structure OrganismRow where
  id : Nat
  organism_id_serial : String
  tax_id : Int

/-- A `sample` table row (models/sample.py; the columns this development
needs). -/
structure SampleRow where
  id : Nat
  sample_id_serial : String
  organism_id : Option Nat
  sample_accession_vector : Option String
  source_json : Option Json

/-- The database state threaded through the import job.  In this source
the import never successfully reads or writes the tables — every row
aborts at its first query — so only the state's identity matters. -/
structure Db where
  organisms : List OrganismRow
  samples : List SampleRow
  sampleSubmitted : List SampleSubmittedRow

/-- `submitted_json` derivation (samples.py lines 348-351): for each
`(ena_key, atol_key)` pair of the mapping table, copy `sample_data[atol_key]`
to `ena_key` when the payload has the key; missing keys are simply absent. -/
def deriveSubmittedJson (mapping : List (String × String))
    (sample_data : Json) : Json :=
  .obj (mapping.filterMap (fun m =>
    (sample_data.lookup m.2).map (fun v => (m.1, v))))

/-- The existence query of samples.py line 315:
`db.query(Sample).filter(Sample.bpa_sample_id == bpa_sample_id).first()`.
Building the filter reads `Sample.bpa_sample_id`, which the model does not
define, so the query raises AttributeError; the `pure none` completion
after the raise is unreachable (no faithful result exists, since the
filter cannot be built). -/
def querySampleByNaturalKey (_db : Db) (_bpa_sample_id : String) :
    Except String (Option SampleRow) := do
  let _ ← pyGetAttr sampleModelColumns "bpa_sample_id"
  pure none

/-- The organism lookup of samples.py line 325: builds a filter over the
likewise-missing `Organism.organism_grouping_key`, raising AttributeError;
unreachable completion. -/
def queryOrganismByGroupingKey (_db : Db) (_v : Json) :
    Except String (Option OrganismRow) := do
  let _ ← pyGetAttr organismModelColumns "organism_grouping_key"
  pure none

/-- The per-row `try` block (samples.py lines 336-365).  `Sample(id=…,
organism_id=…, bpa_sample_id=…, source_json=…)` at line 339 raises
TypeError on the unknown `bpa_sample_id` kwarg; below that raise,
`SampleSubmitted(…, internal_json=…, …)` at line 354 would raise the same
way, and the commit at line 363 would violate the NOT NULL
`sample_id_serial` and `status` columns, which the block never assigns.
Every error of this block is caught by the `except` of lines 367-371
(rollback, row counted as skipped). -/
def tryCreateSampleRow (mapping : List (String × String)) (_db : Db)
    (_bpa_sample_id : String) (sample_data : Json)
    (_organism_id : Option Nat) : Except String Db := do
  let _ ← pyCtorKwargs sampleModelColumns
    ["id", "organism_id", "bpa_sample_id", "source_json"]
  let _submitted_json := deriveSubmittedJson mapping sample_data
  let _ ← pyCtorKwargs sampleSubmittedModelColumns
    ["id", "sample_id", "organism_id", "internal_json", "submitted_json"]
  .error "IntegrityError: NOT NULL column sample_id_serial unset"

/-- One iteration of the bulk-import loop (samples.py lines 313-371):
errors from the two queries propagate (they are outside the try block);
errors from the try block are converted into a skip and the loop
continues.  In this source the line-315 query always raises, so the
function always errors. -/
def importSampleRow (mapping : List (String × String)) (db : Db)
    (bpa_sample_id : String) (sample_data : Json) :
    Except String (Db × Bool) := do
  let existing ← querySampleByNaturalKey db bpa_sample_id
  if existing.isSome then pure (db, false)
  else if sample_data.hasKey "organism_grouping_key" then do
    let org ← queryOrganismByGroupingKey db
      (sample_data.getD "organism_grouping_key" .null)
    match org with
    | none => pure (db, false)
    | some o =>
      match tryCreateSampleRow mapping db bpa_sample_id sample_data
        (some o.id) with
      | .error _ => pure (db, false)
      | .ok db1 => pure (db1, true)
  else pure (db, false)

/-- The bulk-import loop (samples.py lines 309-378): processes the rows in
order and returns `(db, created_count, skipped_count)`; a per-row exception
that the row step does not catch propagates out of the whole job, which
then returns no summary. -/
def bulk_import_samples (mapping : List (String × String)) (db : Db) :
    List (String × Json) → Except String (Db × Nat × Nat)
  | [] => .ok (db, 0, 0)
  | (k, d) :: rest => do
    let step ← importSampleRow mapping db k d
    let r ← bulk_import_samples mapping step.1 rest
    pure (r.1, (if step.2 then 1 else 0) + r.2.1,
      (if step.2 then 0 else 1) + r.2.2)

/-! ## Helper lemmas -/

theorem Json.lookup_of_hasKey_false (j : Json) (k : String)
    (h : j.hasKey k = false) : j.lookup k = none := by
  unfold Json.lookup
  have hfind : j.items.find? (fun kv => kv.1 == k) = none :=
    List.find?_eq_none.mpr (fun x hx => by
      have := List.any_eq_false.mp h x hx
      simpa using this)
  rw [hfind]
  rfl

theorem Json.getD_of_hasKey_false (j : Json) (k : String) (d : Json)
    (h : j.hasKey k = false) : j.getD k d = d := by
  unfold Json.getD
  rw [Json.lookup_of_hasKey_false j k h]
  rfl

theorem Json.textAt_of_hasKey_false (j : Json) (k : String)
    (h : j.hasKey k = false) : j.textAt k = none := by
  unfold Json.textAt
  rw [Json.lookup_of_hasKey_false j k h]
  rfl

theorem Json.hasKey_of_lookup (j : Json) (k : String) (v : Json)
    (h : j.lookup k = some v) : j.hasKey k = true := by
  unfold Json.lookup at h
  rcases Option.map_eq_some'.mp h with ⟨kv, hfind, hv⟩
  have hp := @List.find?_some _ (fun kv => kv.1 == k) kv j.items hfind
  have hm : kv ∈ j.items := List.mem_of_find?_eq_some hfind
  exact List.any_eq_true.mpr ⟨kv, hm, hp⟩

theorem Json.getD_of_lookup (j : Json) (k : String) (v d : Json)
    (h : j.lookup k = some v) : j.getD k d = v := by
  unfold Json.getD
  rw [h]
  rfl

theorem Json.textAt_of_lookup (j : Json) (k : String) (v : Json)
    (h : j.lookup k = some v) : j.textAt k = jsonText v := by
  unfold Json.textAt
  rw [h]
  rfl

theorem Json.textAt_eq_jsonText_getD (j : Json) (k : String) :
    j.textAt k = jsonText (j.getD k .null) := by
  unfold Json.textAt Json.getD
  cases h : j.lookup k
  · rfl
  · rfl

theorem findPath_sample_title (organism : Organism) (j : Json)
    (a cn bn : String) (acc : Option String) :
    (generate_sample_xml_tree organism j a cn bn acc).findPath
        ["SAMPLE", "TITLE"]
      = some (el "TITLE" []
          (jsonText (j.getD "title" (.str (a ++ " sample")))) []) := rfl

theorem findPath_experiment_studyRef (j : Json) (a cn bn : String)
    (acc : Option String) :
    (generate_experiment_xml_tree j a cn bn acc).findPath
        ["EXPERIMENT", "STUDY_REF"]
      = some (studyRefElem j) := rfl

theorem findPath_experiment_libraryLayout (j : Json) (a cn bn : String)
    (acc : Option String) :
    (generate_experiment_xml_tree j a cn bn acc).findPath
        ["EXPERIMENT", "DESIGN", "LIBRARY_DESCRIPTOR", "LIBRARY_LAYOUT"]
      = some (libraryLayoutElem j) := rfl

theorem findPath_experiment_platform (j : Json) (a cn bn : String)
    (acc : Option String) :
    (generate_experiment_xml_tree j a cn bn acc).findPath
        ["EXPERIMENT", "PLATFORM"]
      = some (platformElem j) := rfl

theorem findPath_run_experimentRef (j : Json) (a cn bn : String)
    (acc : Option String) :
    (generate_run_xml_tree j a cn bn acc).findPath ["RUN", "EXPERIMENT_REF"]
      = some (experimentRefElem j) := rfl

theorem findPath_sample_attributes (organism : Organism) (j : Json)
    (a cn bn : String) (acc : Option String) :
    ((generate_sample_xml_tree organism j a cn bn acc).findPath
        ["SAMPLE", "SAMPLE_ATTRIBUTES"]).map Elem.children
      = some (sampleAttributesChildren j.items) := by
  cases h : j.hasKey "description" <;>
    simp [generate_sample_xml_tree, Elem.findPath, Elem.findChild, el, h,
      Elem.children, Elem.tag, identifiersElem, List.find?]

theorem isNull_eq_false_of_ne (v : Json) (h : v ≠ Json.null) :
    isNull v = false := by
  cases v
  case null => exact absurd rfl h
  all_goals rfl

theorem alist_lookup_of_mem_nodup (kvs : List (String × Json)) (k : String)
    (v : Json) (hnd : (kvs.map Prod.fst).Nodup) (hm : (k, v) ∈ kvs) :
    kvs.find? (fun kv => kv.1 == k) = some (k, v) := by
  induction kvs with
  | nil => cases hm
  | cons kv0 rest ih =>
    obtain ⟨k1, v1⟩ := kv0
    have hnd1 : ¬ k1 ∈ rest.map Prod.fst ∧ (rest.map Prod.fst).Nodup := by
      rw [List.map_cons] at hnd
      exact List.nodup_cons.mp hnd
    rcases List.mem_cons.mp hm with heq | hmem
    · injection heq with h1 h2
      subst h1
      subst h2
      simp [List.find?_cons]
    · have hk1 : (k1 == k) = false := by
        apply beq_eq_false_iff_ne.mpr
        intro hh
        subst hh
        exact hnd1.1 (List.mem_map.mpr ⟨(k1, v), hmem, rfl⟩)
      rw [List.find?_cons]
      simp only [hk1]
      exact ih hnd1.2 hmem

theorem Json.mem_of_lookup (j : Json) (k : String) (v : Json)
    (h : j.lookup k = some v) : (k, v) ∈ j.items := by
  unfold Json.lookup at h
  rcases Option.map_eq_some'.mp h with ⟨kv, hfind, hv⟩
  have hp := @List.find?_some _ (fun kv => kv.1 == k) kv j.items hfind
  have hm := List.mem_of_find?_eq_some hfind
  obtain ⟨k1, v1⟩ := kv
  have hk : k1 = k := by simpa using hp
  have hv1 : v1 = v := hv
  subst hk
  subst hv1
  exact hm

theorem key_isNull_of_textAt_none (j : Json) (k : String)
    (hnd : (j.items.map Prod.fst).Nodup) (ht : j.textAt k = none) :
    ∀ kv ∈ j.items, kv.1 = k → isNull kv.2 = true := by
  intro kv hm hk
  obtain ⟨k1, v1⟩ := kv
  subst hk
  have hl : j.lookup k1 = some v1 := by
    unfold Json.lookup
    rw [alist_lookup_of_mem_nodup j.items k1 v1 hnd hm]
    rfl
  unfold Json.textAt at ht
  rw [hl] at ht
  cases v1
  case null => rfl
  all_goals exact Option.noConfusion ht

theorem attrTagIs_sampleAttrElem (k0 : String) (v : Json) (k : String) :
    attrTagIs (sampleAttrElem k0 v) k = (k0 == k) := rfl

theorem attrTagIs_defaultAttr (k0 v0 k : String) :
    attrTagIs (defaultAttr k0 v0) k = (k0 == k) := rfl

theorem attrTagIs_experimentAttrElem (k0 : String) (v : Json) (k : String) :
    attrTagIs (experimentAttrElem k0 v) k = (k0 == k) := rfl

theorem payloadSampleAttrs_cons (kv : String × Json)
    (rest : List (String × Json)) :
    payloadSampleAttrs (kv :: rest) =
      (if kv.1 ∈ skipKeys then []
       else if isNull kv.2 then []
       else [sampleAttrElem kv.1 kv.2]) ++ payloadSampleAttrs rest := by
  unfold payloadSampleAttrs
  rw [List.filterMap_cons]
  by_cases h1 : kv.1 ∈ skipKeys
  · simp [h1]
  · by_cases h2 : isNull kv.2
    · simp [h1, h2]
    · simp [h1, h2]

theorem experimentAttrsChildren_cons (kv : String × Json)
    (rest : List (String × Json)) :
    experimentAttrsChildren (kv :: rest) =
      (if isNull kv.2 then [] else [experimentAttrElem kv.1 kv.2])
        ++ experimentAttrsChildren rest := by
  unfold experimentAttrsChildren
  rw [List.filterMap_cons]
  by_cases h2 : isNull kv.2
  · simp [h2]
  · simp [h2]

theorem payloadSampleAttrs_filter_nil (kvs : List (String × Json))
    (k : String) (h : ∀ kv ∈ kvs, kv.1 = k → isNull kv.2 = true) :
    (payloadSampleAttrs kvs).filter (fun e => attrTagIs e k) = [] := by
  induction kvs with
  | nil => rfl
  | cons kv rest ih =>
    rw [payloadSampleAttrs_cons, List.filter_append,
      ih (fun kv2 hm hk => h kv2 (List.mem_cons_of_mem _ hm) hk),
      List.append_nil]
    by_cases hsk : kv.1 ∈ skipKeys
    · simp [hsk]
    · by_cases hnull : isNull kv.2
      · simp [hsk, hnull]
      · have hk : (kv.1 == k) = false := by
          apply beq_eq_false_iff_ne.mpr
          intro hh
          exact hnull (h kv (List.mem_cons_self _ _) hh)
        simp [hsk, hnull, attrTagIs_sampleAttrElem, hk]

theorem experimentAttrsChildren_filter_nil (kvs : List (String × Json))
    (k : String) (h : ∀ kv ∈ kvs, kv.1 = k → isNull kv.2 = true) :
    (experimentAttrsChildren kvs).filter (fun e => attrTagIs e k) = [] := by
  induction kvs with
  | nil => rfl
  | cons kv rest ih =>
    rw [experimentAttrsChildren_cons, List.filter_append,
      ih (fun kv2 hm hk => h kv2 (List.mem_cons_of_mem _ hm) hk),
      List.append_nil]
    by_cases hnull : isNull kv.2
    · simp [hnull]
    · have hk : (kv.1 == k) = false := by
        apply beq_eq_false_iff_ne.mpr
        intro hh
        exact hnull (h kv (List.mem_cons_self _ _) hh)
      simp [hnull, attrTagIs_experimentAttrElem, hk]

theorem payloadSampleAttrs_filter_singleton (kvs : List (String × Json))
    (k : String) (v : Json) (hnd : (kvs.map Prod.fst).Nodup)
    (hm : (k, v) ∈ kvs) (hv : isNull v = false) (hsk : ¬ k ∈ skipKeys) :
    (payloadSampleAttrs kvs).filter (fun e => attrTagIs e k)
      = [sampleAttrElem k v] := by
  induction kvs with
  | nil => cases hm
  | cons kv0 rest ih =>
    obtain ⟨k1, v1⟩ := kv0
    have hnd1 : ¬ k1 ∈ rest.map Prod.fst ∧ (rest.map Prod.fst).Nodup := by
      rw [List.map_cons] at hnd
      exact List.nodup_cons.mp hnd
    rw [payloadSampleAttrs_cons, List.filter_append]
    rcases List.mem_cons.mp hm with heq | hmem
    · injection heq with h1 h2
      subst h1
      subst h2
      have hrest : (payloadSampleAttrs rest).filter (fun e => attrTagIs e k)
          = [] := by
        apply payloadSampleAttrs_filter_nil
        intro kv2 hm2 hk2
        exfalso
        exact hnd1.1 (List.mem_map.mpr ⟨kv2, hm2, hk2⟩)
      rw [hrest, List.append_nil]
      simp [hsk, hv, attrTagIs_sampleAttrElem]
    · have hk1 : (k1 == k) = false := by
        apply beq_eq_false_iff_ne.mpr
        intro hh
        subst hh
        exact hnd1.1 (List.mem_map.mpr ⟨(k1, v), hmem, rfl⟩)
      have hhead : ((if k1 ∈ skipKeys then []
          else if isNull v1 then []
          else [sampleAttrElem k1 v1]).filter (fun e => attrTagIs e k)) = [] := by
        by_cases hsk1 : k1 ∈ skipKeys
        · simp [hsk1]
        · by_cases hnull : isNull v1
          · simp [hsk1, hnull]
          · simp [hsk1, hnull, attrTagIs_sampleAttrElem, hk1]
      rw [hhead, List.nil_append]
      exact ih hnd1.2 hmem

theorem filter_withDefault_of_ne (attrs : List Elem) (k0 v0 k : String)
    (h : (k0 == k) = false) :
    (withDefault attrs k0 v0).filter (fun e => attrTagIs e k)
      = attrs.filter (fun e => attrTagIs e k) := by
  unfold withDefault
  split
  · rfl
  · rw [List.filter_append]
    simp [attrTagIs_defaultAttr, h]

theorem any_withDefault_of_ne (attrs : List Elem) (k0 v0 k : String)
    (h : (k0 == k) = false) :
    (withDefault attrs k0 v0).any (fun e => attrTagIs e k)
      = attrs.any (fun e => attrTagIs e k) := by
  unfold withDefault
  split
  · rfl
  · rw [List.any_append]
    simp [attrTagIs_defaultAttr, h]

theorem filter_withDefault_self (attrs : List Elem) (k v : String) :
    (withDefault attrs k v).filter (fun e => attrTagIs e k)
      = if attrs.any (fun e => attrTagIs e k)
        then attrs.filter (fun e => attrTagIs e k)
        else [defaultAttr k v] := by
  unfold withDefault
  cases h : attrs.any (fun e => attrTagIs e k)
  · have hnil : attrs.filter (fun e => attrTagIs e k) = [] :=
      List.filter_eq_nil_iff.mpr (List.any_eq_false.mp h)
    simp [h, List.filter_append, hnil, attrTagIs_defaultAttr]
  · simp [h]

theorem isPairedLayout_eq_false (v : Json) (h : v ≠ Json.str "PAIRED") :
    isPairedLayout v = false := by
  cases v
  case str s =>
    by_cases hs : s = "PAIRED"
    · exact absurd (by rw [hs]) h
    · simp [isPairedLayout, hs]
  all_goals rfl

/-! ## Claim C9 -/

/-- C9, counterexample: with alias `"ABC"` and no `title` key, the generated
sample document's `TITLE` text is `"ABC sample"`, not the alias `"ABC"`
claimed by the spec. -/
theorem c9_counterexample :
    ((generate_sample_xml_tree ⟨9606, "Homo sapiens", none⟩ (Json.obj [])
        "ABC" "AToL" "AToL" none).findPath ["SAMPLE", "TITLE"]).map Elem.text
      = some (some (.str "ABC sample")) ∧ "ABC sample" ≠ "ABC" :=
  ⟨rfl, by decide⟩

/-- C9, amended: for every sample payload with no `title` key, the `TITLE`
text is the alias followed by `" sample"`; for every payload that supplies
`title`, the `TITLE` text is the payload's title value. -/
theorem c9_sample_title_text (organism : Organism) (j : Json)
    (a cn bn : String) (acc : Option String) :
    (j.hasKey "title" = false →
      ((generate_sample_xml_tree organism j a cn bn acc).findPath
          ["SAMPLE", "TITLE"]).map Elem.text
        = some (some (.str (a ++ " sample")))) ∧
    (∀ v, j.lookup "title" = some v →
      ((generate_sample_xml_tree organism j a cn bn acc).findPath
          ["SAMPLE", "TITLE"]).map Elem.text
        = some (jsonText v)) := by
  constructor
  · intro h
    rw [findPath_sample_title, Json.getD_of_hasKey_false _ _ _ h]
    rfl
  · intro v hv
    rw [findPath_sample_title, Json.getD_of_lookup _ _ _ _ hv]
    rfl

/-- C9, witness for the amended theorem at concrete payloads. -/
theorem c9_sample_title_text_witness :
    (((generate_sample_xml_tree ⟨1, "Org", none⟩ (Json.obj []) "S1" "AToL"
        "AToL" none).findPath ["SAMPLE", "TITLE"]).map Elem.text
      = some (some (.str "S1 sample"))) ∧
    (((generate_sample_xml_tree ⟨1, "Org", none⟩
        (Json.obj [("title", .str "My title")]) "S1" "AToL" "AToL"
        none).findPath ["SAMPLE", "TITLE"]).map Elem.text
      = some (some (.str "My title"))) :=
  ⟨(c9_sample_title_text ⟨1, "Org", none⟩ (Json.obj []) "S1" "AToL" "AToL"
      none).1 rfl,
   (c9_sample_title_text ⟨1, "Org", none⟩
      (Json.obj [("title", .str "My title")]) "S1" "AToL" "AToL" none).2
      (.str "My title") rfl⟩

/-! ## Claim C2 -/

/-- C2, counterexample: an experiment payload supplying neither
`study_accession` nor `study_refname` still yields a document (no validation
error is raised), and its `STUDY_REF` carries the substituted default
refname `"AToL_study"`. -/
theorem c2_counterexample :
    (generate_experiment_xml (Json.obj []) "e1" "AToL" "AToL" none).isSome
        = true ∧
    ((generate_experiment_xml_tree (Json.obj []) "e1" "AToL" "AToL"
        none).findPath ["EXPERIMENT", "STUDY_REF"]).map Elem.attrs
      = some [("refname", Json.str "AToL_study")] :=
  ⟨rfl, rfl⟩

/-- C2, amended: for every experiment payload that supplies neither
`study_accession` nor `study_refname`, `generate_experiment_xml` does not
raise; it emits `STUDY_REF` with the substituted default refname
`"AToL_study"`. -/
theorem c2_study_ref_default (j : Json) (a cn bn : String)
    (acc : Option String)
    (h1 : j.hasKey "study_accession" = false)
    (h2 : j.hasKey "study_refname" = false) :
    (generate_experiment_xml_tree j a cn bn acc).findPath
        ["EXPERIMENT", "STUDY_REF"]
      = some (el "STUDY_REF" [("refname", .str "AToL_study")] none []) := by
  rw [findPath_experiment_studyRef]
  simp [studyRefElem, studyRefAttrs, h1, Json.getD_of_hasKey_false _ _ _ h2]

/-- C2, witness for the amended theorem at a concrete payload. -/
theorem c2_study_ref_default_witness :
    (generate_experiment_xml_tree (Json.obj [("title", .str "t")]) "e2"
        "AToL" "AToL" none).findPath ["EXPERIMENT", "STUDY_REF"]
      = some (el "STUDY_REF" [("refname", .str "AToL_study")] none []) :=
  c2_study_ref_default (Json.obj [("title", .str "t")]) "e2" "AToL" "AToL"
    none rfl rfl

/-! ## Claim C3 -/

/-- C3, counterexample: a run payload with no resolvable experiment reference
still yields a document from both run builders, and the `EXPERIMENT_REF`
element is emitted with no attributes — the reference is silently omitted
rather than the generation failing. -/
theorem c3_counterexample :
    (generate_run_xml (Json.obj []) "r1" "AToL" "AToL" none).isSome = true ∧
    ((generate_run_xml_tree (Json.obj []) "r1" "AToL" "AToL" none).findPath
        ["RUN", "EXPERIMENT_REF"]).map Elem.attrs = some [] ∧
    ((generate_runs_xml_tree [⟨Json.obj [], "r1", "AToL", "AToL",
        none⟩]).findPath ["RUN", "EXPERIMENT_REF"]).map Elem.attrs
      = some [] ∧
    (generate_runs_xml [⟨Json.obj [], "r1", "AToL", "AToL", none⟩]).isSome
      = true :=
  ⟨rfl, rfl, rfl, rfl⟩

/-- C3, amended: when `experiment_accession` is absent (or not truthy) the
run builders emit `EXPERIMENT_REF` with no attributes and no children — no
error, no alias fallback; when it is truthy, the accession is set together
with a nested `IDENTIFIERS/PRIMARY_ID`. -/
theorem c3_experiment_ref (j : Json) (a cn bn : String)
    (acc : Option String) :
    (pyTruthy (j.getD "experiment_accession" .null) = false →
      (generate_run_xml_tree j a cn bn acc).findPath ["RUN", "EXPERIMENT_REF"]
        = some (el "EXPERIMENT_REF" [] none [])) ∧
    (∀ v, j.lookup "experiment_accession" = some v → pyTruthy v = true →
      (generate_run_xml_tree j a cn bn acc).findPath ["RUN", "EXPERIMENT_REF"]
        = some (el "EXPERIMENT_REF" [("accession", v)] none
            [el "IDENTIFIERS" [] none [el "PRIMARY_ID" [] (some v) []]])) := by
  constructor
  · intro h
    rw [findPath_run_experimentRef]
    simp [experimentRefElem, experimentRefAttrs, experimentRefChildren, h]
  · intro v hv htr
    rw [findPath_run_experimentRef]
    simp [experimentRefElem, experimentRefAttrs, experimentRefChildren,
      Json.getD_of_lookup _ _ _ _ hv, htr]

/-- C3, witness for the amended theorem at concrete payloads. -/
theorem c3_experiment_ref_witness :
    ((generate_run_xml_tree (Json.obj []) "r2" "AToL" "AToL" none).findPath
        ["RUN", "EXPERIMENT_REF"] = some (el "EXPERIMENT_REF" [] none [])) ∧
    ((generate_run_xml_tree (Json.obj [("experiment_accession",
        .str "ERX1")]) "r2" "AToL" "AToL" none).findPath
        ["RUN", "EXPERIMENT_REF"]
      = some (el "EXPERIMENT_REF" [("accession", .str "ERX1")] none
          [el "IDENTIFIERS" [] none
            [el "PRIMARY_ID" [] (some (.str "ERX1")) []]])) :=
  ⟨(c3_experiment_ref (Json.obj []) "r2" "AToL" "AToL" none).1 rfl,
   (c3_experiment_ref (Json.obj [("experiment_accession", .str "ERX1")]) "r2"
      "AToL" "AToL" none).2 (.str "ERX1") rfl rfl⟩

/-! ## Claim C10 -/

/-- C10, counterexample: an experiment payload with no `platform` key does
not make `generate_experiment_xml` raise — a document is returned (CPython
elides the `None`-tagged platform child at serialization time). -/
theorem c10_counterexample :
    (Json.obj []).hasKey "platform" = false ∧
    (generate_experiment_xml (Json.obj []) "e4" "AToL" "AToL" none).isSome
      = true :=
  ⟨rfl, rfl⟩

/-- C10, amended: the `PLATFORM` child is constructed with the payload's
`platform` value as its tag, but a missing/null platform does not raise:
the child's tag is `None`, serialization elides it, and the emitted
`PLATFORM` element contains `INSTRUMENT_MODEL` directly; a string platform
names the child. -/
theorem c10_platform_child (j : Json) (a cn bn : String)
    (acc : Option String) :
    (j.textAt "platform" = none →
      ((generate_experiment_xml_tree j a cn bn acc).findPath
          ["EXPERIMENT", "PLATFORM"]).map (fun e => spliceChildren e.children)
        = some [el "INSTRUMENT_MODEL" [] (j.textAt "instrument_model") []]) ∧
    (∀ s, j.lookup "platform" = some (.str s) →
      ((generate_experiment_xml_tree j a cn bn acc).findPath
          ["EXPERIMENT", "PLATFORM"]).map Elem.children
        = some [el s [] none
            [el "INSTRUMENT_MODEL" [] (j.textAt "instrument_model") []]]) := by
  constructor
  · intro h
    rw [findPath_experiment_platform]
    have h2 : jsonText (j.getD "platform" .null) = none := by
      rw [← Json.textAt_eq_jsonText_getD]
      exact h
    simp [platformElem, h2, spliceChildren, spliceElem, el, Elem.children]
  · intro s hs
    rw [findPath_experiment_platform]
    have h2 : jsonText (j.getD "platform" .null) = some (.str s) := by
      rw [← Json.textAt_eq_jsonText_getD, Json.textAt_of_lookup _ _ _ hs]
      rfl
    simp [platformElem, h2, el, Elem.children]

/-- C10, witness for the amended theorem at concrete payloads. -/
theorem c10_platform_child_witness :
    (((generate_experiment_xml_tree (Json.obj []) "e5" "AToL" "AToL"
        none).findPath ["EXPERIMENT", "PLATFORM"]).map
          (fun e => spliceChildren e.children)
      = some [el "INSTRUMENT_MODEL" [] none []]) ∧
    (((generate_experiment_xml_tree (Json.obj [("platform",
        .str "ILLUMINA")]) "e5" "AToL" "AToL" none).findPath
        ["EXPERIMENT", "PLATFORM"]).map Elem.children
      = some [el "ILLUMINA" [] none [el "INSTRUMENT_MODEL" [] none []]]) :=
  ⟨(c10_platform_child (Json.obj []) "e5" "AToL" "AToL" none).1 rfl,
   (c10_platform_child (Json.obj [("platform", .str "ILLUMINA")]) "e5"
      "AToL" "AToL" none).2 "ILLUMINA" rfl⟩

/-! ## Claim C8 -/

/-- C8, counterexample: a staging row in DRAFT with null `submitted_json` —
a state the schema admits (`status` is a free string column,
`submitted_json` nullable, models/sample.py lines 47-49) — is moved to
status `"submitted"` by the update endpoint while `submitted_json` stays
null: the claimed invariant is not enforced by any operation.  The create
endpoint cannot take part in the trace: it raises AttributeError for every
request (samples.py line 203 reads the schema-less `bpa_sample_id`). -/
theorem c8_counterexample :
    (update_sample_submission ⟨none, none, none, "draft", none⟩
        ⟨none, none, some "submitted", none⟩).status = "submitted" ∧
    (update_sample_submission ⟨none, none, none, "draft", none⟩
        ⟨none, none, some "submitted", none⟩).submitted_json = none ∧
    "submitted" ≠ "draft" ∧
    create_sample_submission ⟨none, none, none, "draft", none⟩
      = .error "AttributeError: bpa_sample_id" :=
  ⟨rfl, rfl, by decide, rfl⟩

/-- C8, amended: the update endpoint performs no cross-field validation:
an update that provides a status and does not provide `submitted_json` sets
the status verbatim and leaves `submitted_json` unchanged (in particular
null stays null), so a row can leave DRAFT with a null `submitted_json`. -/
theorem c8_staging_no_guard (row : SampleSubmittedRow)
    (u : SampleSubmittedUpdate) (s : String)
    (hs : u.status = some s) (hj : u.submitted_json = none) :
    (update_sample_submission row u).status = s ∧
    (update_sample_submission row u).submitted_json = row.submitted_json := by
  constructor
  · simp [update_sample_submission, hs]
  · simp [update_sample_submission, hj]

/-- C8, witness for the amended theorem at a concrete row and update body. -/
theorem c8_staging_no_guard_witness :
    (update_sample_submission ⟨none, none, none, "draft", none⟩
        ⟨none, none, some "ready", none⟩).status = "ready" ∧
    (update_sample_submission ⟨none, none, none, "draft", none⟩
        ⟨none, none, some "ready", none⟩).submitted_json = none :=
  c8_staging_no_guard ⟨none, none, none, "draft", none⟩
    ⟨none, none, some "ready", none⟩ "ready" rfl rfl

theorem sampleAttributesChildren_filter_checklist
    (kvs : List (String × Json)) :
    (sampleAttributesChildren kvs).filter
        (fun e => attrTagIs e "ENA-CHECKLIST")
      = if (payloadSampleAttrs kvs).any (fun e => attrTagIs e "ENA-CHECKLIST")
        then (payloadSampleAttrs kvs).filter
          (fun e => attrTagIs e "ENA-CHECKLIST")
        else [defaultAttr "ENA-CHECKLIST" "ERC000053"] := by
  unfold sampleAttributesChildren
  rw [filter_withDefault_of_ne _ _ _ _ (by decide),
    filter_withDefault_of_ne _ _ _ _ (by decide),
    filter_withDefault_self]

theorem sampleAttributesChildren_filter_collecting
    (kvs : List (String × Json)) :
    (sampleAttributesChildren kvs).filter
        (fun e => attrTagIs e "collecting institution")
      = if (payloadSampleAttrs kvs).any
          (fun e => attrTagIs e "collecting institution")
        then (payloadSampleAttrs kvs).filter
          (fun e => attrTagIs e "collecting institution")
        else [defaultAttr "collecting institution" "not provided"] := by
  unfold sampleAttributesChildren
  rw [filter_withDefault_of_ne _ _ _ _ (by decide),
    filter_withDefault_self,
    any_withDefault_of_ne _ _ _ _ (by decide),
    filter_withDefault_of_ne _ _ _ _ (by decide)]

theorem sampleAttributesChildren_filter_project
    (kvs : List (String × Json)) :
    (sampleAttributesChildren kvs).filter
        (fun e => attrTagIs e "project name")
      = if (payloadSampleAttrs kvs).any (fun e => attrTagIs e "project name")
        then (payloadSampleAttrs kvs).filter
          (fun e => attrTagIs e "project name")
        else [defaultAttr "project name" "atol-genome-engine"] := by
  unfold sampleAttributesChildren
  rw [filter_withDefault_self,
    any_withDefault_of_ne _ _ _ _ (by decide),
    any_withDefault_of_ne _ _ _ _ (by decide),
    filter_withDefault_of_ne _ _ _ _ (by decide),
    filter_withDefault_of_ne _ _ _ _ (by decide)]

/-! ## Claim C1 -/

/-- C1, counterexample: with an empty payload the experiment generator still
emits a `LIBRARY_NAME` element — an empty placeholder with no text — even
though the `library_name` key is absent, and the document is returned. -/
theorem c1_counterexample :
    (Json.obj []).hasKey "library_name" = false ∧
    ((generate_experiment_xml_tree (Json.obj []) "e7" "AToL" "AToL"
        none).findPath
        ["EXPERIMENT", "DESIGN", "LIBRARY_DESCRIPTOR", "LIBRARY_NAME"]).map
        Elem.text
      = some none ∧
    (generate_experiment_xml (Json.obj []) "e7" "AToL" "AToL" none).isSome
      = true :=
  ⟨rfl, rfl, rfl⟩

/-- C1, amended: keys with null/absent values produce no `SAMPLE_ATTRIBUTE`
(beyond the three injected defaults) and no `EXPERIMENT_ATTRIBUTE`; but the
experiment document's `LIBRARY_NAME`, `LIBRARY_STRATEGY`, `LIBRARY_SOURCE`,
`LIBRARY_SELECTION` and `INSERT_SIZE` elements are emitted unconditionally,
with empty text when the key is missing or null. -/
theorem c1_null_skipping (j : Json) (a cn bn : String)
    (acc : Option String) (k : String) :
    ((j.items.map Prod.fst).Nodup → j.textAt k = none →
      ¬ k ∈ ["ENA-CHECKLIST", "collecting institution", "project name"] →
      (sampleAttributesChildren j.items).filter (fun e => attrTagIs e k)
        = []) ∧
    (((j.getD "attributes" .null).items.map Prod.fst).Nodup →
      (j.getD "attributes" .null).textAt k = none →
      ∀ e1 ∈ experimentAttributesOpt j,
        e1.children.filter (fun e => attrTagIs e k) = []) ∧
    ((generate_experiment_xml_tree j a cn bn acc).findPath
        ["EXPERIMENT", "DESIGN", "LIBRARY_DESCRIPTOR", "LIBRARY_NAME"]
      = some (el "LIBRARY_NAME" [] (j.textAt "library_name") [])) ∧
    ((generate_experiment_xml_tree j a cn bn acc).findPath
        ["EXPERIMENT", "DESIGN", "LIBRARY_DESCRIPTOR", "LIBRARY_STRATEGY"]
      = some (el "LIBRARY_STRATEGY" [] (j.textAt "library_strategy") [])) ∧
    ((generate_experiment_xml_tree j a cn bn acc).findPath
        ["EXPERIMENT", "DESIGN", "LIBRARY_DESCRIPTOR", "LIBRARY_SOURCE"]
      = some (el "LIBRARY_SOURCE" [] (j.textAt "library_source") [])) ∧
    ((generate_experiment_xml_tree j a cn bn acc).findPath
        ["EXPERIMENT", "DESIGN", "LIBRARY_DESCRIPTOR", "LIBRARY_SELECTION"]
      = some (el "LIBRARY_SELECTION" [] (j.textAt "library_selection") [])) ∧
    ((generate_experiment_xml_tree j a cn bn acc).findPath
        ["EXPERIMENT", "DESIGN", "LIBRARY_DESCRIPTOR", "INSERT_SIZE"]
      = some (el "INSERT_SIZE" [] (j.textAt "insert_size") [])) := by
  refine ⟨?_, ?_, rfl, rfl, rfl, rfl, rfl⟩
  · intro hnd ht hk3
    have h1 : (("ENA-CHECKLIST" : String) == k) = false := by
      apply beq_eq_false_iff_ne.mpr
      intro hh
      apply hk3
      rw [← hh]
      simp
    have h2 : (("collecting institution" : String) == k) = false := by
      apply beq_eq_false_iff_ne.mpr
      intro hh
      apply hk3
      rw [← hh]
      simp
    have h3 : (("project name" : String) == k) = false := by
      apply beq_eq_false_iff_ne.mpr
      intro hh
      apply hk3
      rw [← hh]
      simp
    have hnil := payloadSampleAttrs_filter_nil j.items k
      (key_isNull_of_textAt_none j k hnd ht)
    unfold sampleAttributesChildren
    rw [filter_withDefault_of_ne _ _ _ _ h3, filter_withDefault_of_ne _ _ _ _
      h2, filter_withDefault_of_ne _ _ _ _ h1, hnil]
  · intro hnd ht e1 he1
    cases hl : j.lookup "attributes" with
    | none =>
      have hopt : experimentAttributesOpt j = [] := by
        unfold experimentAttributesOpt
        rw [hl]
      rw [hopt] at he1
      cases he1
    | some attrs =>
      have hgd : j.getD "attributes" .null = attrs :=
        Json.getD_of_lookup _ _ _ _ hl
      rw [hgd] at hnd ht
      have hopt : experimentAttributesOpt j =
          if pyTruthy attrs then
            [el "EXPERIMENT_ATTRIBUTES" [] none
              (experimentAttrsChildren attrs.items)]
          else [] := by
        unfold experimentAttributesOpt
        rw [hl]
      rw [hopt] at he1
      by_cases htr : pyTruthy attrs = true
      · rw [if_pos htr] at he1
        rw [List.mem_singleton.mp he1]
        exact experimentAttrsChildren_filter_nil attrs.items k
          (key_isNull_of_textAt_none attrs k hnd ht)
      · rw [if_neg htr] at he1
        cases he1

/-- C1, witness for the amended theorem: a null-valued key yields no sample
attribute and no experiment attribute. -/
theorem c1_null_skipping_witness :
    ((sampleAttributesChildren (Json.obj [("foo", Json.null)]).items).filter
        (fun e => attrTagIs e "foo") = []) ∧
    ((el "EXPERIMENT_ATTRIBUTES" [] none
        (experimentAttrsChildren [("bar", Json.null)])).children.filter
        (fun e => attrTagIs e "bar") = []) :=
  ⟨(c1_null_skipping (Json.obj [("foo", Json.null)]) "S"
      "AToL" "AToL" none "foo").1 (by decide) rfl (by decide),
   (c1_null_skipping
      (Json.obj [("attributes", Json.obj [("bar", Json.null)])]) "S" "AToL"
      "AToL" none "bar").2.1 (by decide) rfl
      (el "EXPERIMENT_ATTRIBUTES" [] none
        (experimentAttrsChildren [("bar", Json.null)]))
      (List.mem_singleton_self _)⟩

/-! ## Claim C4 -/

/-- C4: default-attribute injection in `generate_sample_xml` is idempotent
for `ENA-CHECKLIST`, `project name` and `collecting institution`: a payload
lacking the key yields exactly one `SAMPLE_ATTRIBUTE` with that `TAG`,
carrying the fixed default value; a payload supplying the key with a
non-null value yields exactly one such attribute carrying the payload's
value, with no duplicate added. -/
theorem c4_default_injection (organism : Organism) (j : Json)
    (a cn bn : String) (acc : Option String)
    (hnd : (j.items.map Prod.fst).Nodup) :
    ((generate_sample_xml_tree organism j a cn bn acc).findPath
        ["SAMPLE", "SAMPLE_ATTRIBUTES"]).map Elem.children
      = some (sampleAttributesChildren j.items) ∧
    ∀ kd ∈ [("ENA-CHECKLIST", "ERC000053"),
        ("collecting institution", "not provided"),
        ("project name", "atol-genome-engine")],
      (j.hasKey kd.1 = false →
        (sampleAttributesChildren j.items).filter (fun e => attrTagIs e kd.1)
          = [defaultAttr kd.1 kd.2]) ∧
      (∀ v, j.lookup kd.1 = some v → v ≠ Json.null →
        (sampleAttributesChildren j.items).filter (fun e => attrTagIs e kd.1)
          = [sampleAttrElem kd.1 v]) := by
  constructor
  · exact findPath_sample_attributes organism j a cn bn acc
  · intro kd hkd
    simp only [List.mem_cons, List.mem_singleton, List.not_mem_nil,
      or_false] at hkd
    have absent : ∀ k : String, j.hasKey k = false →
        (payloadSampleAttrs j.items).any (fun e => attrTagIs e k) = false := by
      intro k h
      have hforall : ∀ kv ∈ j.items, kv.1 = k → isNull kv.2 = true := by
        intro kv hm hk
        exact absurd (by simp [hk]) (List.any_eq_false.mp h kv hm)
      exact List.any_eq_false.mpr
        (List.filter_eq_nil_iff.mp (payloadSampleAttrs_filter_nil _ k hforall))
    have supplied : ∀ (k : String) (v : Json), ¬ k ∈ skipKeys →
        j.lookup k = some v → v ≠ Json.null →
        (payloadSampleAttrs j.items).filter (fun e => attrTagIs e k)
            = [sampleAttrElem k v] ∧
        (payloadSampleAttrs j.items).any (fun e => attrTagIs e k) = true := by
      intro k v hsk hv hvn
      have hfil := payloadSampleAttrs_filter_singleton j.items k v hnd
        (Json.mem_of_lookup _ _ _ hv) (isNull_eq_false_of_ne v hvn) hsk
      have hmemf : sampleAttrElem k v ∈
          (payloadSampleAttrs j.items).filter (fun e => attrTagIs e k) := by
        rw [hfil]
        exact List.mem_singleton_self _
      exact ⟨hfil, List.any_eq_true.mpr ⟨sampleAttrElem k v,
        List.mem_of_mem_filter hmemf,
        @List.of_mem_filter _ (fun e => attrTagIs e k) (sampleAttrElem k v)
          (payloadSampleAttrs j.items) hmemf⟩⟩
    rcases hkd with rfl | rfl | rfl
    · refine ⟨?_, ?_⟩
      · intro h
        rw [sampleAttributesChildren_filter_checklist,
          absent "ENA-CHECKLIST" h]
        rfl
      · intro v hv hvn
        obtain ⟨hfil, hany⟩ := supplied "ENA-CHECKLIST" v (by decide) hv hvn
        rw [sampleAttributesChildren_filter_checklist, hany, if_pos rfl, hfil]
    · refine ⟨?_, ?_⟩
      · intro h
        rw [sampleAttributesChildren_filter_collecting,
          absent "collecting institution" h]
        rfl
      · intro v hv hvn
        obtain ⟨hfil, hany⟩ :=
          supplied "collecting institution" v (by decide) hv hvn
        rw [sampleAttributesChildren_filter_collecting, hany, if_pos rfl, hfil]
    · refine ⟨?_, ?_⟩
      · intro h
        rw [sampleAttributesChildren_filter_project, absent "project name" h]
        rfl
      · intro v hv hvn
        obtain ⟨hfil, hany⟩ := supplied "project name" v (by decide) hv hvn
        rw [sampleAttributesChildren_filter_project, hany, if_pos rfl, hfil]

/-- C4, witness: a payload that supplies `ENA-CHECKLIST` keeps exactly its
own value; a payload lacking `project name` gets exactly the injected
default. -/
theorem c4_default_injection_witness :
    ((sampleAttributesChildren
        (Json.obj [("ENA-CHECKLIST", Json.str "ERC000011")]).items).filter
        (fun e => attrTagIs e "ENA-CHECKLIST")
      = [sampleAttrElem "ENA-CHECKLIST" (Json.str "ERC000011")]) ∧
    ((sampleAttributesChildren
        (Json.obj [("ENA-CHECKLIST", Json.str "ERC000011")]).items).filter
        (fun e => attrTagIs e "project name")
      = [defaultAttr "project name" "atol-genome-engine"]) :=
  ⟨((c4_default_injection ⟨1, "O", none⟩
      (Json.obj [("ENA-CHECKLIST", .str "ERC000011")]) "S" "AToL" "AToL" none
      (by decide)).2 ("ENA-CHECKLIST", "ERC000053")
      (List.mem_cons_self _ _)).2 (.str "ERC000011") rfl
      (by intro hh; cases hh),
   ((c4_default_injection ⟨1, "O", none⟩
      (Json.obj [("ENA-CHECKLIST", .str "ERC000011")]) "S" "AToL" "AToL" none
      (by decide)).2 ("project name", "atol-genome-engine") (by decide)).1 rfl⟩

/-! ## Claim C5 -/

/-- C5: the generated `LIBRARY_LAYOUT` element has exactly one child — a
`PAIRED` element when the payload's `library_layout` equals `"PAIRED"`,
whose `NOMINAL_LENGTH` attribute is the string coercion of `nominal_length`
exactly when that key is supplied; otherwise (key absent or any other value)
a childless `SINGLE` element. -/
theorem c5_library_layout (j : Json) (a cn bn : String)
    (acc : Option String) :
    (j.lookup "library_layout" = some (.str "PAIRED") →
      (generate_experiment_xml_tree j a cn bn acc).findPath
          ["EXPERIMENT", "DESIGN", "LIBRARY_DESCRIPTOR", "LIBRARY_LAYOUT"]
        = some (el "LIBRARY_LAYOUT" [] none
            [el "PAIRED" (nominalLengthAttrs j) none []])) ∧
    (∀ v, j.lookup "library_layout" = some v → v ≠ .str "PAIRED" →
      (generate_experiment_xml_tree j a cn bn acc).findPath
          ["EXPERIMENT", "DESIGN", "LIBRARY_DESCRIPTOR", "LIBRARY_LAYOUT"]
        = some (el "LIBRARY_LAYOUT" [] none [el "SINGLE" [] none []])) ∧
    (j.hasKey "library_layout" = false →
      (generate_experiment_xml_tree j a cn bn acc).findPath
          ["EXPERIMENT", "DESIGN", "LIBRARY_DESCRIPTOR", "LIBRARY_LAYOUT"]
        = some (el "LIBRARY_LAYOUT" [] none [el "SINGLE" [] none []])) ∧
    (∀ v, j.lookup "nominal_length" = some v →
      nominalLengthAttrs j = [("NOMINAL_LENGTH", .str (pyStr v))]) ∧
    (j.hasKey "nominal_length" = false → nominalLengthAttrs j = []) := by
  refine ⟨?_, ?_, ?_, ?_, ?_⟩
  · intro h
    rw [findPath_experiment_libraryLayout]
    simp [libraryLayoutElem, Json.getD_of_lookup _ _ _ _ h, isPairedLayout]
  · intro v hv hne
    rw [findPath_experiment_libraryLayout]
    simp [libraryLayoutElem, Json.getD_of_lookup _ _ _ _ hv,
      isPairedLayout_eq_false v hne]
  · intro h
    rw [findPath_experiment_libraryLayout]
    simp [libraryLayoutElem, Json.getD_of_hasKey_false _ _ _ h, isPairedLayout]
  · intro v hv
    simp [nominalLengthAttrs, Json.hasKey_of_lookup _ _ _ hv,
      Json.getD_of_lookup _ _ _ _ hv]
  · intro h
    simp [nominalLengthAttrs, h]

/-- C5, witness at concrete payloads: `library_layout = "PAIRED"` with
`nominal_length = 300` yields `PAIRED` with `NOMINAL_LENGTH="300"`; a
missing or `"SINGLE"` layout yields a childless `SINGLE`. -/
theorem c5_library_layout_witness :
    ((generate_experiment_xml_tree
        (Json.obj [("library_layout", .str "PAIRED"),
          ("nominal_length", .num 300)]) "e6" "AToL" "AToL" none).findPath
        ["EXPERIMENT", "DESIGN", "LIBRARY_DESCRIPTOR", "LIBRARY_LAYOUT"]
      = some (el "LIBRARY_LAYOUT" [] none
          [el "PAIRED" [("NOMINAL_LENGTH", .str "300")] none []])) ∧
    ((generate_experiment_xml_tree (Json.obj []) "e6" "AToL" "AToL"
        none).findPath
        ["EXPERIMENT", "DESIGN", "LIBRARY_DESCRIPTOR", "LIBRARY_LAYOUT"]
      = some (el "LIBRARY_LAYOUT" [] none [el "SINGLE" [] none []])) ∧
    ((generate_experiment_xml_tree (Json.obj [("library_layout",
        .str "SINGLE")]) "e6" "AToL" "AToL" none).findPath
        ["EXPERIMENT", "DESIGN", "LIBRARY_DESCRIPTOR", "LIBRARY_LAYOUT"]
      = some (el "LIBRARY_LAYOUT" [] none [el "SINGLE" [] none []])) := by
  refine ⟨?_, ?_, ?_⟩
  · have h := (c5_library_layout
      (Json.obj [("library_layout", .str "PAIRED"),
        ("nominal_length", .num 300)]) "e6" "AToL" "AToL" none).1 rfl
    exact h
  · exact (c5_library_layout (Json.obj []) "e6" "AToL" "AToL" none).2.2.1 rfl
  · exact (c5_library_layout (Json.obj [("library_layout", .str "SINGLE")])
      "e6" "AToL" "AToL" none).2.1 (.str "SINGLE") rfl
      (by intro hh; injection hh with hs; exact absurd hs (by decide))

/-! ## Bulk-import facts (for C6 and C7) -/

theorem querySampleByNaturalKey_err (db : Db) (k : String) :
    querySampleByNaturalKey db k
      = .error "AttributeError: bpa_sample_id" := rfl

theorem importSampleRow_err (mapping : List (String × String)) (db : Db)
    (k : String) (d : Json) :
    importSampleRow mapping db k d
      = .error "AttributeError: bpa_sample_id" := rfl

theorem tryCreateSampleRow_err (mapping : List (String × String)) (db : Db)
    (k : String) (d : Json) (oid : Option Nat) :
    tryCreateSampleRow mapping db k d oid
      = .error "TypeError: invalid keyword argument bpa_sample_id" := rfl

/-! ## Claim C6 -/

/-- C6: the idempotent re-run the claim describes is unreachable in this
source — on the first row of any non-empty input the existence query of
samples.py line 315 reads `Sample.bpa_sample_id`, a column the Sample model
does not define, and the uncaught AttributeError aborts the job before any
skip-if-exists logic runs; only the empty input returns a summary, with
`created_count 0, skipped_count 0`.  So a first run can never yield
`created_count > 0` (and inside the try block the constructors would raise
TypeError on their unknown kwargs anyway). -/
theorem c6_import_aborts_on_any_row :
    bulk_import_samples [] ⟨[⟨0, "org1", 9606⟩], [], []⟩
        [("s1", Json.obj [("organism_grouping_key", Json.str "gk")])]
      = .error "AttributeError: bpa_sample_id" ∧
    bulk_import_samples [] ⟨[⟨0, "org1", 9606⟩], [], []⟩ []
      = .ok (⟨[⟨0, "org1", 9606⟩], [], []⟩, 0, 0) :=
  ⟨rfl, rfl⟩

/-! ## Claim C7 -/

/-- C7, counterexample: a two-row import aborts on its first row with an
uncaught AttributeError from the per-row existence query — the exception is
not caught, the second row is never processed, and no aggregate count
summary is returned, contradicting "the job never aborts due to a single
bad row". -/
theorem c7_counterexample :
    bulk_import_samples [] ⟨[], [], []⟩
        [("s1", Json.obj [("organism_grouping_key", Json.str "g1")]),
         ("s2", Json.obj [("organism_grouping_key", Json.str "g2")])]
      = .error "AttributeError: bpa_sample_id" := rfl

/-- C7, amended: only exceptions raised inside the per-row try block
(samples.py lines 336-365) are caught, rolled back and counted as skips;
the per-row queries run outside it and their exceptions propagate, aborting
the job.  In this source those queries raise AttributeError on every row,
so every non-empty import errors on its first row and only the empty input
yields a summary; the try block itself deterministically raises a TypeError
(unknown constructor kwarg), which would be caught as a skip. -/
theorem c7_catch_scope (mapping : List (String × String)) (db : Db)
    (rows : List (String × Json)) :
    (rows = [] → bulk_import_samples mapping db rows = .ok (db, 0, 0)) ∧
    (rows ≠ [] → bulk_import_samples mapping db rows
        = .error "AttributeError: bpa_sample_id") ∧
    (∀ k d oid, tryCreateSampleRow mapping db k d oid
        = .error "TypeError: invalid keyword argument bpa_sample_id") := by
  refine ⟨?_, ?_, fun k d oid => tryCreateSampleRow_err mapping db k d oid⟩
  · intro h
    subst h
    rfl
  · intro h
    cases rows with
    | nil => exact absurd rfl h
    | cons q rest =>
      obtain ⟨k, d⟩ := q
      simp only [bulk_import_samples]
      rw [importSampleRow_err]
      rfl

/-- C7, witness for the amended theorem: the empty input returns the
`(0, 0)` summary; a singleton input propagates the query error. -/
theorem c7_catch_scope_witness :
    (bulk_import_samples [] ⟨[], [], []⟩ [] = .ok (⟨[], [], []⟩, 0, 0)) ∧
    (bulk_import_samples [] ⟨[], [], []⟩ [("s9", Json.obj [])]
      = .error "AttributeError: bpa_sample_id") :=
  ⟨(c7_catch_scope [] ⟨[], [], []⟩ []).1 rfl,
   (c7_catch_scope [] ⟨[], [], []⟩ [("s9", Json.obj [])]).2.1
     (List.cons_ne_nil _ _)⟩

end Atol
